import Mathlib

/-!
Shallow embedding of the Signal Analysis & Session Integrity Engine of the
video-proctoring system, translated from:
  - `src/frontend/src/hooks/useFocusDetection.js`
  - `src/frontend/src/components/Dashboard/Dashboard.jsx`
Times are wall-clock milliseconds (`Date.now()`), modelled as `Int`.
JavaScript numbers appearing in exact integer arithmetic are modelled as `Int`;
the one real division (session duration in seconds) is modelled over `ℚ`.
-/

namespace Proctor

/-- The five violation event types of the engine
    (`FOCUS_LOST`, `NO_FACE`, `MULTIPLE_FACES`, `EYE_CLOSURE`, `SUSPICIOUS_OBJECT`). -/
inductive EventType where
  | FOCUS_LOST
  | NO_FACE
  | MULTIPLE_FACES
  | EYE_CLOSURE
  | SUSPICIOUS_OBJECT
  deriving DecidableEq, Repr

/-- Event severity, `'warning'` or `'danger'` in the source. -/
inductive Severity where
  | warning
  | danger
  deriving DecidableEq, Repr

/-- The `focusData` state object of `useFocusDetection.js` (lines 4-12). -/
structure FocusData where
  faceDetected : Bool
  lookingAtScreen : Bool
  focusScore : Int
  focusLostDuration : Int
  noFaceDuration : Int
  multipleFaces : Bool
  eyeClosure : Bool
  deriving DecidableEq, Repr

/-- One face's landmark set: 2D points in normalized coordinates.
    (The geometric content is irrelevant to the transition logic modelled here;
    `calculateGaze` / `calculateEAR` use floating-point `Math.sqrt` and are kept
    abstract, see `GazeResult`.) -/
abbrev Landmarks := List (ℚ × ℚ)

/-- The result of `calculateGaze` (useFocusDetection.js lines 113-133):
    a looking-at-screen flag and an eye-closure flag for the primary face. -/
structure GazeResult where
  lookingAtScreen : Bool
  eyeClosure : Bool
  deriving DecidableEq, Repr

/-- The mutable state of the `useFocusDetection` hook: the published
    `focusData` plus the two reference timestamps `lastFocusTime` and
    `lastFaceTime` (refs initialised to `Date.now()`). -/
structure HookState where
  focusData : FocusData
  lastFocusTime : Int
  lastFaceTime : Int
  deriving DecidableEq, Repr

/-- `calculateFocusScore` (useFocusDetection.js lines 142-151):
    start at 100, subtract 50 if no face, 20 if not looking at screen,
    30 if multiple faces, 15 if eye closure, 20 if `focusLostDuration > 5000`,
    40 if `noFaceDuration > 10000`; floor at 0. -/
def calculateFocusScore (data : FocusData) : Int :=
  let score : Int := 100
  let score := if !data.faceDetected then score - 50 else score
  let score := if !data.lookingAtScreen then score - 20 else score
  let score := if data.multipleFaces then score - 30 else score
  let score := if data.eyeClosure then score - 15 else score
  let score := if data.focusLostDuration > 5000 then score - 20 else score
  let score := if data.noFaceDuration > 10000 then score - 40 else score
  max 0 score

/-- `onFaceResults` (useFocusDetection.js lines 38-75), the per-frame focus
    analysis.  `multiFaceLandmarks` is `results.multiFaceLandmarks`; the gaze
    analysis on the primary face is the parameter `gaze` (the source's
    `calculateGaze`).  Starts from `{ ...focusData }`, i.e. every field not
    assigned in a branch keeps its previous-frame value. -/
def onFaceResults (gaze : Landmarks → GazeResult)
    (multiFaceLandmarks : List Landmarks) (currentTime : Int)
    (s : HookState) : HookState :=
  match multiFaceLandmarks with
  | landmarks :: _ =>
      let d0 := { s.focusData with
        faceDetected := true
        multipleFaces := multiFaceLandmarks.length > 1
        noFaceDuration := 0 }
      let lastFaceTime := currentTime
      let g := gaze landmarks
      let d1 := { d0 with
        lookingAtScreen := g.lookingAtScreen
        eyeClosure := g.eyeClosure }
      if g.lookingAtScreen then
        let d2 := { d1 with focusLostDuration := 0 }
        { focusData := { d2 with focusScore := calculateFocusScore d2 }
          lastFocusTime := currentTime
          lastFaceTime := lastFaceTime }
      else
        let d2 := { d1 with focusLostDuration := currentTime - s.lastFocusTime }
        { focusData := { d2 with focusScore := calculateFocusScore d2 }
          lastFocusTime := s.lastFocusTime
          lastFaceTime := lastFaceTime }
  | [] =>
      let d1 := { s.focusData with
        faceDetected := false
        lookingAtScreen := false
        noFaceDuration := currentTime - s.lastFaceTime
        focusLostDuration := currentTime - s.lastFocusTime }
      { focusData := { d1 with focusScore := calculateFocusScore d1 }
        lastFocusTime := s.lastFocusTime
        lastFaceTime := s.lastFaceTime }

/-- JavaScript `Math.round` on the exact rational value: floor of x + 1/2. -/
def jsRound (q : ℚ) : Int := ⌊q + 1 / 2⌋

/-- One object detection (`obj` in Dashboard.jsx): a class name and a
    confidence in [0,1].  (The bounding box plays no role in the engine.) -/
structure Detection where
  className : String
  confidence : ℚ
  deriving DecidableEq, Repr

/-- The object filter (Dashboard.jsx line 176):
    `objectData.detectedObjects.filter(obj => obj.class !== 'person')`. -/
def suspiciousObjects (detectedObjects : List Detection) : List Detection :=
  detectedObjects.filter (fun obj => obj.className ≠ "person")

/-- A candidate violation event as passed to `addEvent` (before debouncing and
    timestamping).  `dataClass` models `event.data?.class`: `some c` when the
    payload is a detection with class `c` (SUSPICIOUS_OBJECT events), `none`
    when the payload is `focusData` (which has no `class` field). -/
structure EventCandidate where
  type : EventType
  severity : Severity
  message : String
  dataClass : Option String
  deriving DecidableEq, Repr

/-- An accepted, logged event: the candidate stamped with the absolute
    timestamp and the session-relative time (Dashboard.jsx lines 130-134). -/
structure LoggedEvent where
  type : EventType
  severity : Severity
  message : String
  dataClass : Option String
  timestamp : Int
  sessionTime : Int
  deriving DecidableEq, Repr

/-- The debounce map `lastEventTimeRef.current`: event type ↦ time of the last
    accepted event of that type (`none` when no event of that type was
    accepted yet; the source reads a missing entry as `0` via `|| 0`). -/
abbrev DebounceMap := EventType → Option Int

/-- `addEvent` (Dashboard.jsx lines 120-140): drop the candidate silently when
    `now - (lastEventTime[type] || 0) < 3000`; otherwise record `now` in the
    debounce map, stamp the event, and append it to the log. -/
def addEvent (now sessionStart : Int) (m : DebounceMap)
    (events : List LoggedEvent) (event : EventCandidate) :
    DebounceMap × List LoggedEvent :=
  let lastTime := (m event.type).getD 0
  if now - lastTime < 3000 then
    (m, events)
  else
    let m' : DebounceMap := fun t => if t = event.type then some now else m t
    let newEvent : LoggedEvent :=
      { type := event.type
        severity := event.severity
        message := event.message
        dataClass := event.dataClass
        timestamp := now
        sessionTime := now - sessionStart }
    (m', events ++ [newEvent])

/-- The focus-violation effect (Dashboard.jsx lines 142-171): candidate events
    produced from the current `focusData`, in source order. -/
def focusEffectCandidates (fd : FocusData) : List EventCandidate :=
  (if fd.focusLostDuration > 5000 then
    [{ type := EventType.FOCUS_LOST
       severity := Severity.warning
       message := "Focus lost for " ++
         toString (jsRound ((fd.focusLostDuration : ℚ) / 1000)) ++ "s"
       dataClass := none }]
   else []) ++
  (if fd.noFaceDuration > 10000 then
    [{ type := EventType.NO_FACE
       severity := Severity.danger
       message := "No face detected for " ++
         toString (jsRound ((fd.noFaceDuration : ℚ) / 1000)) ++ "s"
       dataClass := none }]
   else []) ++
  (if fd.multipleFaces then
    [{ type := EventType.MULTIPLE_FACES
       severity := Severity.danger
       message := "Multiple faces detected in frame"
       dataClass := none }]
   else [])

/-- The suspicious-object effect (Dashboard.jsx lines 173-189): one
    SUSPICIOUS_OBJECT candidate per filtered detection, in order. -/
def objectEffectCandidates (detectedObjects : List Detection) : List EventCandidate :=
  (suspiciousObjects detectedObjects).map fun obj =>
    { type := EventType.SUSPICIOUS_OBJECT
      severity := Severity.danger
      message := obj.className ++ " detected (" ++
        toString (jsRound (obj.confidence * 100)) ++ "% confidence)"
      dataClass := some obj.className }

/-- Run `addEvent` on each candidate of a tick, left to right. -/
def addEvents (now sessionStart : Int) (st : DebounceMap × List LoggedEvent)
    (cs : List EventCandidate) : DebounceMap × List LoggedEvent :=
  cs.foldl (fun acc c => addEvent now sessionStart acc.1 acc.2 c) st

/-- The per-session engine state threaded through sampling ticks: the focus
    hook's state, the debounce map, and the event log. -/
structure EngineState where
  hook : HookState
  debounce : DebounceMap
  events : List LoggedEvent

/-- One sampling tick at wall-clock time `now`: run the frame through
    `onFaceResults`, then the focus-violation effect, then the
    suspicious-object effect, appending accepted events. -/
def samplingTick (gaze : Landmarks → GazeResult)
    (frame : List Landmarks) (objects : List Detection)
    (now sessionStart : Int) (s : EngineState) : EngineState :=
  let hook := onFaceResults gaze frame now s.hook
  let st1 := addEvents now sessionStart (s.debounce, s.events)
    (focusEffectCandidates hook.focusData)
  let st2 := addEvents now sessionStart st1
    (objectEffectCandidates objects)
  { hook := hook, debounce := st2.1, events := st2.2 }

/-- One tick's external input: the frame's landmark results, its object
    detections, and the wall-clock time of the tick. -/
structure TickInput where
  frame : List Landmarks
  objects : List Detection
  now : Int

/-- Run a sequence of sampling ticks from an engine state. -/
def runTicks (gaze : Landmarks → GazeResult) (sessionStart : Int)
    (s : EngineState) (inputs : List TickInput) : EngineState :=
  inputs.foldl (fun s i => samplingTick gaze i.frame i.objects i.now sessionStart s) s

/-- JavaScript `String.prototype.trim`: strip leading and trailing
    whitespace, modelled over the string's character list. -/
def jsTrim (s : String) : String :=
  String.mk (((s.toList.dropWhile Char.isWhitespace).reverse.dropWhile Char.isWhitespace).reverse)

/-- The Dashboard component's session state (Dashboard.jsx lines 11-18),
    together with flags for the external capture/recording collaborators. -/
structure DashState where
  isSessionActive : Bool
  candidateName : String
  sessionId : Option Nat
  sessionStartTime : Option Int
  events : List LoggedEvent
  sessionTimer : Nat
  samplingScheduled : Bool
  timerScheduled : Bool
  cameraOn : Bool
  recordingOn : Bool
  deriving Repr

/-- Outcome of a start request: success, validation failure (empty trimmed
    candidate name), or a failure thrown by `startCamera`, `startRecording`
    or `apiService.createSession` and caught by the `catch` block. -/
inductive StartResult where
  | ok
  | validationFailure
  | startFailure
  deriving DecidableEq, Repr

/-- The external collaborators' behaviour during one start request: whether
    each of the three awaited steps succeeds, the id the persistence
    collaborator returns, and the wall-clock time. -/
structure StartEnv where
  cameraOk : Bool
  recordingOk : Bool
  createOk : Bool
  newSessionId : Nat
  now : Int

/-- `startSession` (Dashboard.jsx lines 41-76): reject when the trimmed
    candidate name is empty, then `startCamera`, `startRecording`,
    `createSession`; on success set the session fields, reset the event log
    and timer, and schedule both 1000ms intervals.  A failure in any awaited
    step jumps to the `catch` block: no state setter has run at that point
    (the resources acquired before the failing step stay acquired). -/
def startSession (env : StartEnv) (s : DashState) : DashState × StartResult :=
  if jsTrim s.candidateName = "" then
    (s, StartResult.validationFailure)
  else if !env.cameraOk then
    (s, StartResult.startFailure)
  else
    let s1 := { s with cameraOn := true }
    if !env.recordingOk then
      (s1, StartResult.startFailure)
    else
      let s2 := { s1 with recordingOn := true }
      if !env.createOk then
        (s2, StartResult.startFailure)
      else
        ({ s2 with
            sessionId := some env.newSessionId
            sessionStartTime := some env.now
            isSessionActive := true
            events := []
            sessionTimer := 0
            samplingScheduled := true
            timerScheduled := true }, StartResult.ok)

/-- `focusSummary` of the finalized session (Dashboard.jsx lines 95-100). -/
structure FocusSummary where
  focusLostCount : Nat
  noFaceCount : Nat
  multipleFacesCount : Nat
  eyeClosureCount : Nat
  deriving DecidableEq, Repr

/-- `objectSummary` of the finalized session (Dashboard.jsx lines 101-104). -/
structure ObjectSummary where
  totalDetections : Nat
  items : List String
  deriving DecidableEq, Repr

/-- JavaScript `[...new Set(l)]`: deduplicate keeping first occurrences. -/
def setDedup (l : List String) : List String :=
  l.foldl (fun acc x => if x ∈ acc then acc else acc ++ [x]) []

/-- The finalized session record built by `endSession`
    (Dashboard.jsx lines 88-105). -/
structure SessionData where
  sessionId : Option Nat
  candidateName : String
  startTime : Int
  endTime : Int
  duration : ℚ
  events : List LoggedEvent
  focusSummary : FocusSummary
  objectSummary : ObjectSummary
  deriving DecidableEq, Repr

/-- The `sessionData` object of `endSession`: duration is
    `(endTime - startTime) / 1000` seconds; the focus summary counts the
    events of each focus type; the object summary counts SUSPICIOUS_OBJECT
    events and collects `[...new Set(events.filter(...).map(e => e.data?.class).filter(Boolean))]`. -/
def mkSessionData (sessionId : Option Nat) (candidateName : String)
    (startTime endTime : Int) (events : List LoggedEvent) : SessionData :=
  { sessionId := sessionId
    candidateName := candidateName
    startTime := startTime
    endTime := endTime
    duration := ((endTime - startTime : Int) : ℚ) / 1000
    events := events
    focusSummary :=
      { focusLostCount := (events.filter (fun e => e.type = EventType.FOCUS_LOST)).length
        noFaceCount := (events.filter (fun e => e.type = EventType.NO_FACE)).length
        multipleFacesCount := (events.filter (fun e => e.type = EventType.MULTIPLE_FACES)).length
        eyeClosureCount := (events.filter (fun e => e.type = EventType.EYE_CLOSURE)).length }
    objectSummary :=
      { totalDetections := (events.filter (fun e => e.type = EventType.SUSPICIOUS_OBJECT)).length
        items := setDedup
          ((((events.filter (fun e => e.type = EventType.SUSPICIOUS_OBJECT)).map
              (fun e => e.dataClass)).filterMap id).filter (fun c => c ≠ "")) } }

/-- `endSession` (Dashboard.jsx lines 78-116): cancel both intervals, stop
    recording and camera, build the finalized record, and reset the session
    fields.  When `sessionStartTime` is unset, `sessionStartTime.getTime()`
    throws before the record is built; the `catch` block leaves the remaining
    state as it was. -/
def endSession (endTime : Int) (s : DashState) : Option SessionData × DashState :=
  let s0 := { s with
    samplingScheduled := false
    timerScheduled := false
    recordingOn := false
    cameraOn := false }
  match s.sessionStartTime with
  | none => (none, s0)
  | some startTime =>
      let sessionData :=
        mkSessionData s.sessionId s.candidateName startTime endTime s.events
      (some sessionData,
        { s0 with
            isSessionActive := false
            sessionId := none
            candidateName := ""
            sessionTimer := 0 })

/-! ### Sample inputs and scenario definitions used by concrete theorems -/

/-- A gaze analysis returning neither looking-at-screen nor eye closure
    (its value is irrelevant on frames with zero faces). -/
def gaze0 : Landmarks → GazeResult := fun _ => { lookingAtScreen := false, eyeClosure := false }

/-- The nominal focus data: one face, looking at the screen, no violations. -/
def fdNominal : FocusData :=
  { faceDetected := true
    lookingAtScreen := true
    focusScore := 100
    focusLostDuration := 0
    noFaceDuration := 0
    multipleFaces := false
    eyeClosure := false }

/-- A previous-frame hook state in which multiple faces and eye closure were
    flagged on the last frame. -/
def hsPrevFlags : HookState :=
  { focusData := { fdNominal with multipleFaces := true, eyeClosure := true }
    lastFocusTime := 0
    lastFaceTime := 0 }

/-- A hook state whose last-face and last-focus timestamps differ: the face
    was last seen at 2000 but was last looking at the screen at 1000. -/
def hsSplitTimes : HookState :=
  { focusData := { fdNominal with lookingAtScreen := false, focusLostDuration := 500 }
    lastFocusTime := 1000
    lastFaceTime := 2000 }

/-- A focus-lost candidate event, as built at Dashboard.jsx line 146. -/
def candFocusLost : EventCandidate :=
  { type := EventType.FOCUS_LOST
    severity := Severity.warning
    message := "Focus lost for 6s"
    dataClass := none }

/-- A person detection at 90% confidence. -/
def dPerson : Detection := { className := "person", confidence := 9 / 10 }

/-- A book detection at 87% confidence. -/
def dBook : Detection := { className := "book", confidence := 87 / 100 }

/-- An idle Dashboard state with a whitespace-only candidate name. -/
def idleBlankName : DashState :=
  { isSessionActive := false
    candidateName := "   "
    sessionId := none
    sessionStartTime := none
    events := []
    sessionTimer := 0
    samplingScheduled := false
    timerScheduled := false
    cameraOn := false
    recordingOn := false }

/-- A start environment in which every external step would succeed. -/
def envAllOk : StartEnv :=
  { cameraOk := true, recordingOk := true, createOk := true
    newSessionId := 1, now := 1000 }

/-- A start environment in which `startRecording` fails. -/
def envRecFails : StartEnv :=
  { cameraOk := true, recordingOk := false, createOk := true
    newSessionId := 1, now := 1000 }

/-- An idle Dashboard state with a valid candidate name. -/
def idleNamed : DashState := { idleBlankName with candidateName := "Ada" }

/-- The engine state at session start for the no-face scenario: nominal focus
    data, both timestamps at the session-start instant 1700000000000 (an
    epoch-scale `Date.now()` value), empty debounce map, empty log. -/
def scnStart : EngineState :=
  { hook := { focusData := fdNominal
              lastFocusTime := 1700000000000
              lastFaceTime := 1700000000000 }
    debounce := fun _ => none
    events := [] }

/-- Eleven sampling ticks at the 1000ms interval, each observing zero faces
    and zero objects, spanning 11000ms after the session start. -/
def scnInputs : List TickInput :=
  [ { frame := [], objects := [], now := 1700000001000 }
  , { frame := [], objects := [], now := 1700000002000 }
  , { frame := [], objects := [], now := 1700000003000 }
  , { frame := [], objects := [], now := 1700000004000 }
  , { frame := [], objects := [], now := 1700000005000 }
  , { frame := [], objects := [], now := 1700000006000 }
  , { frame := [], objects := [], now := 1700000007000 }
  , { frame := [], objects := [], now := 1700000008000 }
  , { frame := [], objects := [], now := 1700000009000 }
  , { frame := [], objects := [], now := 1700000010000 }
  , { frame := [], objects := [], now := 1700000011000 } ]

/-- The engine state at the end of the 11000ms no-face span. -/
def scnFinal : EngineState := runTicks gaze0 1700000000000 scnStart scnInputs

/-- A logged SUSPICIOUS_OBJECT event for a book detection. -/
def evSus : LoggedEvent :=
  { type := EventType.SUSPICIOUS_OBJECT
    severity := Severity.danger
    message := "book detected (87% confidence)"
    dataClass := some "book"
    timestamp := 1700000005000
    sessionTime := 5000 }

/-! ### Theorems -/

/-- Claim C1 counterexample: on a frame with zero faces, `onFaceResults` does
    not reset `multipleFaces` or `eyeClosure`: both keep the values they held
    on the previous frame (here `true`), contradicting the claim that the
    analysis emits `multipleFaces=false` and `eyeClosure=false` regardless of
    the previous frame. -/
theorem C1_counterexample :
    (onFaceResults gaze0 [] 1000 hsPrevFlags).focusData.multipleFaces = true ∧
    (onFaceResults gaze0 [] 1000 hsPrevFlags).focusData.eyeClosure = true := by
  constructor <;> rfl

/-- Claim C1 (amended): on a frame with zero faces, the per-frame focus
    analysis emits `faceDetected=false` and `lookingAtScreen=false`, while
    `multipleFaces` and `eyeClosure` keep the values they held on the
    previous frame. -/
theorem C1_zero_faces_transition (gaze : Landmarks → GazeResult)
    (now : Int) (s : HookState) :
    (onFaceResults gaze [] now s).focusData.faceDetected = false ∧
    (onFaceResults gaze [] now s).focusData.lookingAtScreen = false ∧
    (onFaceResults gaze [] now s).focusData.multipleFaces = s.focusData.multipleFaces ∧
    (onFaceResults gaze [] now s).focusData.eyeClosure = s.focusData.eyeClosure := by
  exact ⟨rfl, rfl, rfl, rfl⟩

/-- Claim C2 counterexample: with the face last seen at 2000 and the last
    looking-at-screen instant at 1000, a zero-face frame at 3000 sets
    `focusLostDuration` to `3000 - 1000 = 2000`, not `now - lastFaceSeen
    = 1000` as the claim states. -/
theorem C2_counterexample :
    (onFaceResults gaze0 [] 3000 hsSplitTimes).focusData.focusLostDuration = 2000 ∧
    (2000 : Int) ≠ 3000 - hsSplitTimes.lastFaceTime := by
  constructor
  · rfl
  · decide

/-- Claim C2 (amended): on a frame with zero faces, the tracker sets
    `noFaceDuration = now - lastFaceSeen` but
    `focusLostDuration = now - lastFocusTime` (the last looking-at-screen
    instant), not `now - lastFaceSeen`. -/
theorem C2_no_face_durations (gaze : Landmarks → GazeResult)
    (now : Int) (s : HookState) :
    (onFaceResults gaze [] now s).focusData.noFaceDuration = now - s.lastFaceTime ∧
    (onFaceResults gaze [] now s).focusData.focusLostDuration = now - s.lastFocusTime := by
  exact ⟨rfl, rfl⟩

/-- The focus score is always within [0,100]. -/
theorem calculateFocusScore_bounds (d : FocusData) :
    0 ≤ calculateFocusScore d ∧ calculateFocusScore d ≤ 100 := by
  simp only [calculateFocusScore]
  refine ⟨le_max_left _ _, ?_⟩
  apply max_le (by norm_num)
  split_ifs <;> omega

/-- Claim C3: the focus score equals `max 0 (100 - sum of applicable
    penalties)` with penalties 50 (no face), 20 (not looking at screen),
    30 (multiple faces), 15 (eye closure), 20 (`focusLostDuration > 5000`),
    40 (`noFaceDuration > 10000`), and consequently the `focusScore` field
    lies in [0,100] after every `onFaceResults` transition. -/
theorem C3_focus_score (d : FocusData) :
    calculateFocusScore d =
      max 0 (100 -
        ((if !d.faceDetected then (50 : Int) else 0) +
         (if !d.lookingAtScreen then 20 else 0) +
         (if d.multipleFaces then 30 else 0) +
         (if d.eyeClosure then 15 else 0) +
         (if d.focusLostDuration > 5000 then 20 else 0) +
         (if d.noFaceDuration > 10000 then 40 else 0))) ∧
    (0 ≤ calculateFocusScore d ∧ calculateFocusScore d ≤ 100) ∧
    ∀ (gaze : Landmarks → GazeResult) (frame : List Landmarks)
      (now : Int) (s : HookState),
      0 ≤ (onFaceResults gaze frame now s).focusData.focusScore ∧
      (onFaceResults gaze frame now s).focusData.focusScore ≤ 100 := by
  refine ⟨?_, calculateFocusScore_bounds d, ?_⟩
  · simp only [calculateFocusScore]
    congr 1
    split_ifs <;> omega
  · intro gaze frame now s
    have h : ∃ d2, (onFaceResults gaze frame now s).focusData.focusScore =
        calculateFocusScore d2 := by
      cases frame with
      | nil => exact ⟨_, rfl⟩
      | cons landmarks rest =>
          simp only [onFaceResults]
          split
          · exact ⟨_, rfl⟩
          · exact ⟨_, rfl⟩
    obtain ⟨d2, hd2⟩ := h
    rw [hd2]
    exact calculateFocusScore_bounds d2

/-- `addEvent` on the accepting branch: `now` is recorded for the type and
    the stamped event is appended. -/
theorem addEvent_accept (now sessionStart : Int) (m : DebounceMap)
    (events : List LoggedEvent) (e : EventCandidate)
    (h : ¬ now - (m e.type).getD 0 < 3000) :
    addEvent now sessionStart m events e =
      (fun t => if t = e.type then some now else m t,
       events ++ [{ type := e.type
                    severity := e.severity
                    message := e.message
                    dataClass := e.dataClass
                    timestamp := now
                    sessionTime := now - sessionStart }]) := by
  simp only [addEvent]
  rw [if_neg h]

/-- `addEvent` on the dropping branch: the map and the log are unchanged. -/
theorem addEvent_drop (now sessionStart : Int) (m : DebounceMap)
    (events : List LoggedEvent) (e : EventCandidate)
    (h : now - (m e.type).getD 0 < 3000) :
    addEvent now sessionStart m events e = (m, events) := by
  simp only [addEvent]
  rw [if_pos h]

/-- Claim C4: `addEvent` accepts a candidate at time `now` iff
    `now - lastAcceptedTime[type] ≥ 3000` or no event of that type was
    accepted yet (given an epoch-scale clock, `3000 ≤ now`); a dropped
    candidate leaves both the log and the debounce map unchanged; and of two
    same-type candidates at `now` and `now + 2999` only the first is
    accepted, while a third at least 3000ms after the last accepted one is
    accepted. -/
theorem C4_debouncer (now sessionStart u : Int) (m : DebounceMap)
    (events : List LoggedEvent) (e : EventCandidate) (h : 3000 ≤ now) :
    ((addEvent now sessionStart m events e).2.length = events.length + 1 ↔
      (m e.type = none ∨ ∃ s, m e.type = some s ∧ 3000 ≤ now - s)) ∧
    (now - (m e.type).getD 0 < 3000 →
      addEvent now sessionStart m events e = (m, events)) ∧
    (m e.type = none →
      (addEvent now sessionStart m events e).2.length = events.length + 1 ∧
      addEvent (now + 2999) sessionStart (addEvent now sessionStart m events e).1
          (addEvent now sessionStart m events e).2 e =
        addEvent now sessionStart m events e ∧
      (now + 3000 ≤ u →
        (addEvent u sessionStart (addEvent now sessionStart m events e).1
            (addEvent now sessionStart m events e).2 e).2.length =
          events.length + 2)) := by
  refine ⟨?_, fun h' => addEvent_drop now sessionStart m events e h', fun hm => ?_⟩
  · rcases hOpt : m e.type with _ | s
    · have hg : (m e.type).getD 0 = 0 := by rw [hOpt]; rfl
      rw [addEvent_accept now sessionStart m events e (by rw [hg]; omega)]
      exact iff_of_true (by simp) (Or.inl rfl)
    · have hg : (m e.type).getD 0 = s := by rw [hOpt]; rfl
      by_cases hc : now - s < 3000
      · rw [addEvent_drop now sessionStart m events e (by rw [hg]; omega)]
        refine iff_of_false (by simp) ?_
        rintro (hnone | ⟨s', hs', hle⟩)
        · exact Option.noConfusion hnone
        · injection hs' with hs'
          omega
      · rw [addEvent_accept now sessionStart m events e (by rw [hg]; omega)]
        exact iff_of_true (by simp) (Or.inr ⟨s, rfl, by omega⟩)
  · have hg : (m e.type).getD 0 = 0 := by rw [hm]; rfl
    have acc1 := addEvent_accept now sessionStart m events e (by rw [hg]; omega)
    have hm1 : (addEvent now sessionStart m events e).1 e.type = some now := by
      rw [acc1]
      simp
    refine ⟨?_, ?_, ?_⟩
    · simp [acc1]
    · exact addEvent_drop (now + 2999) sessionStart _ _ e
        (by rw [hm1]; simp only [Option.getD_some]; omega)
    · intro hu
      rw [addEvent_accept u sessionStart _ _ e
        (by rw [hm1]; simp only [Option.getD_some]; omega)]
      simp [acc1]

/-- Claim C4 witness: with an empty debounce map, a first FOCUS_LOST
    candidate at time 5000 is accepted into the empty log. -/
theorem C4_witness :
    (addEvent 5000 0 (fun _ => none) [] candFocusLost).2.length =
      ([] : List LoggedEvent).length + 1 :=
  ((C4_debouncer 5000 0 9000 (fun _ => none) [] candFocusLost
    (by norm_num)).2.2 rfl).1

/-- Claim C5: the object filter returns exactly the subsequence of detections
    whose class name is not `"person"`: the output is a sublist of the input
    (order preserved), membership is exactly the non-person elements,
    multiplicities of kept elements are unchanged (no deduplication), the
    filter is idempotent, and a person-free input is returned unchanged. -/
theorem C5_object_filter (l : List Detection) :
    (suspiciousObjects l).Sublist l ∧
    (∀ d, d ∈ suspiciousObjects l ↔ d ∈ l ∧ d.className ≠ "person") ∧
    (∀ d, d.className ≠ "person" → (suspiciousObjects l).count d = l.count d) ∧
    suspiciousObjects (suspiciousObjects l) = suspiciousObjects l ∧
    ((∀ d ∈ l, d.className ≠ "person") → suspiciousObjects l = l) := by
  refine ⟨List.filter_sublist l, ?_, ?_, ?_, ?_⟩
  · intro d
    simp [suspiciousObjects]
  · intro d hd
    unfold suspiciousObjects
    rw [List.count_filter]
    simp [hd]
  · unfold suspiciousObjects
    rw [List.filter_filter]
    simp
  · intro hall
    unfold suspiciousObjects
    rw [List.filter_eq_self]
    intro d hd
    simpa using hall d hd

/-- Claim C5 witness: filtering the person-free list `[book]` returns it
    unchanged, and filtering `[person, book]` keeps exactly `book`. -/
theorem C5_witness : suspiciousObjects [dBook] = [dBook] :=
  (C5_object_filter [dBook]).2.2.2.2 (by decide)

/-- Claim C6: a start request whose candidate name is empty after trimming
    whitespace is rejected with a validation failure before any state
    change: the returned state is exactly the input state (so the controller
    stays Idle, no session record is created, and no capture resources are
    acquired). -/
theorem C6_empty_name_rejected (env : StartEnv) (s : DashState)
    (h : jsTrim s.candidateName = "") :
    startSession env s = (s, StartResult.validationFailure) := by
  simp only [startSession]
  rw [if_pos h]

/-- Claim C6 witness: a whitespace-only candidate name is rejected with a
    validation failure and the state is returned unchanged. -/
theorem C6_witness :
    startSession envAllOk idleBlankName = (idleBlankName, StartResult.validationFailure) :=
  C6_empty_name_rejected envAllOk idleBlankName (by decide)

/-- Claim C7: when any step of the Idle→Active transition fails (camera,
    recording, or session creation), a controller that started Idle is never
    marked active, schedules no periodic ticks, creates no session record,
    leaves the event log as it was, and surfaces the failure to the caller. -/
theorem C7_start_failure_stays_idle (env : StartEnv) (s : DashState)
    (hActive : s.isSessionActive = false)
    (hSamp : s.samplingScheduled = false)
    (hTimer : s.timerScheduled = false)
    (hSid : s.sessionId = none)
    (hFail : (startSession env s).2 ≠ StartResult.ok) :
    (startSession env s).1.isSessionActive = false ∧
    (startSession env s).1.samplingScheduled = false ∧
    (startSession env s).1.timerScheduled = false ∧
    (startSession env s).1.sessionId = none ∧
    (startSession env s).1.sessionStartTime = s.sessionStartTime ∧
    (startSession env s).1.events = s.events ∧
    (startSession env s).1.sessionTimer = s.sessionTimer ∧
    ((startSession env s).2 = StartResult.validationFailure ∨
     (startSession env s).2 = StartResult.startFailure) := by
  revert hFail
  simp only [startSession]
  split_ifs <;> simp_all

/-- Claim C7 witness: when recording acquisition fails, the session is not
    marked active and the failure is surfaced as a start failure. -/
theorem C7_witness :
    (startSession envRecFails idleNamed).1.isSessionActive = false ∧
    ((startSession envRecFails idleNamed).2 = StartResult.validationFailure ∨
     (startSession envRecFails idleNamed).2 = StartResult.startFailure) := by
  have h := C7_start_failure_stays_idle envRecFails idleNamed rfl rfl rfl rfl (by decide)
  exact ⟨h.1, h.2.2.2.2.2.2.2⟩

/-- Claim C8: with zero faces observed for a continuous 11000ms span sampled
    at the 1000ms tick interval, the final tick leaves
    `noFaceDuration = 11000`, a focus score clamped to 0, and exactly one
    accepted NO_FACE event in the log after debouncing. -/
theorem C8_no_face_scenario :
    scnFinal.hook.focusData.noFaceDuration = 11000 ∧
    scnFinal.hook.focusData.focusScore = 0 ∧
    (scnFinal.events.filter (fun e => e.type = EventType.NO_FACE)).length = 1 := by
  decide

/-- Membership in the `setDedup` fold: an element is in the result iff it is
    in the accumulator or in the remaining list. -/
theorem setDedup_go_mem (l acc : List String) (x : String) :
    (x ∈ l.foldl (fun acc y => if y ∈ acc then acc else acc ++ [y]) acc) ↔
      x ∈ acc ∨ x ∈ l := by
  induction l generalizing acc with
  | nil => simp
  | cons a t ih =>
      simp only [List.foldl_cons]
      by_cases ha : a ∈ acc
      · rw [if_pos ha, ih]
        simp only [List.mem_cons]
        constructor
        · rintro (h | h)
          · exact Or.inl h
          · exact Or.inr (Or.inr h)
        · rintro (h | rfl | h)
          · exact Or.inl h
          · exact Or.inl ha
          · exact Or.inr h
      · rw [if_neg ha, ih]
        simp only [List.mem_append, List.mem_singleton, List.mem_cons]
        tauto

/-- The `setDedup` fold preserves duplicate-freedom of the accumulator. -/
theorem setDedup_go_nodup (l : List String) :
    ∀ acc : List String, acc.Nodup →
      (l.foldl (fun acc y => if y ∈ acc then acc else acc ++ [y]) acc).Nodup := by
  induction l with
  | nil => intro acc h; simpa using h
  | cons a t ih =>
      intro acc h
      simp only [List.foldl_cons]
      by_cases ha : a ∈ acc
      · rw [if_pos ha]
        exact ih _ h
      · rw [if_neg ha]
        refine ih _ ?_
        rw [List.nodup_append]
        exact ⟨h, List.nodup_singleton a, by simpa [List.disjoint_singleton] using ha⟩

/-- `setDedup` preserves membership. -/
theorem mem_setDedup (x : String) (l : List String) : x ∈ setDedup l ↔ x ∈ l := by
  unfold setDedup
  rw [setDedup_go_mem]
  simp

/-- `setDedup` returns a duplicate-free list. -/
theorem setDedup_nodup (l : List String) : (setDedup l).Nodup :=
  setDedup_go_nodup l [] List.nodup_nil

/-- Claim C9: the finalized session record has `duration` equal to
    `endTime - startTime` in seconds, focus-summary counts equal to the
    number of logged events of each focus type, an object-summary total equal
    to the number of logged SUSPICIOUS_OBJECT events, and object-summary
    items forming the duplicate-free set of the distinct class names of those
    events (given that every logged SUSPICIOUS_OBJECT event carries a
    non-empty class name, as all events built from detections do); the
    Active→Ended transition emits exactly this record. -/
theorem C9_final_record (sid : Option Nat) (name : String)
    (startTime endTime : Int) (events : List LoggedEvent)
    (hclass : ∀ e ∈ events, e.type = EventType.SUSPICIOUS_OBJECT →
      ∃ c, e.dataClass = some c ∧ c ≠ "") :
    (mkSessionData sid name startTime endTime events).duration * 1000 =
      ((endTime - startTime : Int) : ℚ) ∧
    (mkSessionData sid name startTime endTime events).focusSummary.focusLostCount =
      events.countP (fun e => e.type = EventType.FOCUS_LOST) ∧
    (mkSessionData sid name startTime endTime events).focusSummary.noFaceCount =
      events.countP (fun e => e.type = EventType.NO_FACE) ∧
    (mkSessionData sid name startTime endTime events).focusSummary.multipleFacesCount =
      events.countP (fun e => e.type = EventType.MULTIPLE_FACES) ∧
    (mkSessionData sid name startTime endTime events).focusSummary.eyeClosureCount =
      events.countP (fun e => e.type = EventType.EYE_CLOSURE) ∧
    (mkSessionData sid name startTime endTime events).objectSummary.totalDetections =
      events.countP (fun e => e.type = EventType.SUSPICIOUS_OBJECT) ∧
    (mkSessionData sid name startTime endTime events).objectSummary.items.Nodup ∧
    (∀ c, c ∈ (mkSessionData sid name startTime endTime events).objectSummary.items ↔
      ∃ e ∈ events, e.type = EventType.SUSPICIOUS_OBJECT ∧ e.dataClass = some c) ∧
    (∀ s : DashState, s.sessionStartTime = some startTime → s.sessionId = sid →
      s.candidateName = name → s.events = events →
      (endSession endTime s).1 =
        some (mkSessionData sid name startTime endTime events)) := by
  refine ⟨?_, ?_, ?_, ?_, ?_, ?_, setDedup_nodup _, ?_, ?_⟩
  · simp only [mkSessionData]
    rw [div_mul_cancel₀ _ (by norm_num : (1000 : ℚ) ≠ 0)]
  · simp [mkSessionData, List.countP_eq_length_filter]
  · simp [mkSessionData, List.countP_eq_length_filter]
  · simp [mkSessionData, List.countP_eq_length_filter]
  · simp [mkSessionData, List.countP_eq_length_filter]
  · simp [mkSessionData, List.countP_eq_length_filter]
  · intro c
    have hitems : (mkSessionData sid name startTime endTime events).objectSummary.items =
        setDedup (((events.filter
            (fun e => e.type = EventType.SUSPICIOUS_OBJECT)).filterMap
          (fun e => e.dataClass)).filter (fun c => c ≠ "")) := by
      simp only [mkSessionData]
      rw [List.filterMap_map]
      rfl
    rw [hitems, mem_setDedup]
    simp only [List.mem_filter, List.mem_filterMap, decide_eq_true_eq,
      decide_not, Bool.not_eq_true', ne_eq]
    constructor
    · rintro ⟨⟨e, he, hc⟩, hne⟩
      exact ⟨e, he.1, he.2, hc⟩
    · rintro ⟨e, he, hty, hc⟩
      obtain ⟨c', hc', hne'⟩ := hclass e he hty
      rw [hc] at hc'
      injection hc' with hcc
      subst hcc
      exact ⟨⟨e, ⟨he, hty⟩, hc⟩, by simpa using hne'⟩
  · intro s h1 h2 h3 h4
    simp [endSession, h1, h2, h3, h4]

/-- Claim C9 witness: a log holding one SUSPICIOUS_OBJECT event for class
    `"book"` yields an object summary counting exactly the SUSPICIOUS_OBJECT
    events. -/
theorem C9_witness :
    (mkSessionData (some 1) "Ada" 0 11000 [evSus]).objectSummary.totalDetections =
      [evSus].countP (fun e => e.type = EventType.SUSPICIOUS_OBJECT) :=
  (C9_final_record (some 1) "Ada" 0 11000 [evSus]
    (by
      intro e he hty
      have he' : e = evSus := by simpa using he
      subst he'
      exact ⟨"book", rfl, by decide⟩)).2.2.2.2.2.1

/-- No candidate produced by the focus-violation effect is an EYE_CLOSURE
    event. -/
theorem focusEffectCandidates_no_eye (fd : FocusData) :
    ∀ c ∈ focusEffectCandidates fd, c.type ≠ EventType.EYE_CLOSURE := by
  have hall : (focusEffectCandidates fd).all
      (fun c => c.type != EventType.EYE_CLOSURE) = true := by
    unfold focusEffectCandidates
    split_ifs <;> rfl
  intro c hc
  simpa using List.all_eq_true.mp hall c hc

/-- No candidate produced by the suspicious-object effect is an EYE_CLOSURE
    event. -/
theorem objectEffectCandidates_no_eye (objs : List Detection) :
    ∀ c ∈ objectEffectCandidates objs, c.type ≠ EventType.EYE_CLOSURE := by
  intro c hc
  unfold objectEffectCandidates at hc
  rw [List.mem_map] at hc
  obtain ⟨obj, _, rfl⟩ := hc
  simp

/-- `addEvent` only appends an event whose type is the candidate's type. -/
theorem addEvent_no_eye (now sessionStart : Int) (m : DebounceMap)
    (events : List LoggedEvent) (e : EventCandidate)
    (hE : ∀ x ∈ events, x.type ≠ EventType.EYE_CLOSURE)
    (hc : e.type ≠ EventType.EYE_CLOSURE) :
    ∀ x ∈ (addEvent now sessionStart m events e).2,
      x.type ≠ EventType.EYE_CLOSURE := by
  intro x hx
  simp only [addEvent] at hx
  split at hx
  · exact hE x hx
  · rw [List.mem_append] at hx
    rcases hx with hx | hx
    · exact hE x hx
    · rw [List.mem_singleton] at hx
      subst hx
      exact hc

/-- `addEvents` preserves the absence of EYE_CLOSURE events. -/
theorem addEvents_no_eye (now sessionStart : Int) (cs : List EventCandidate) :
    ∀ st : DebounceMap × List LoggedEvent,
      (∀ x ∈ st.2, x.type ≠ EventType.EYE_CLOSURE) →
      (∀ c ∈ cs, c.type ≠ EventType.EYE_CLOSURE) →
      ∀ x ∈ (addEvents now sessionStart st cs).2,
        x.type ≠ EventType.EYE_CLOSURE := by
  induction cs with
  | nil => intro st hS _; exact hS
  | cons c t ih =>
      intro st hS hC
      simp only [addEvents, List.foldl_cons]
      exact ih (addEvent now sessionStart st.1 st.2 c)
        (addEvent_no_eye now sessionStart st.1 st.2 c hS (hC c (List.mem_cons_self c t)))
        (fun c' hc' => hC c' (List.mem_cons_of_mem c hc'))

/-- A sampling tick preserves the absence of EYE_CLOSURE events. -/
theorem samplingTick_no_eye (gaze : Landmarks → GazeResult)
    (frame : List Landmarks) (objects : List Detection)
    (now sessionStart : Int) (s : EngineState)
    (hS : ∀ x ∈ s.events, x.type ≠ EventType.EYE_CLOSURE) :
    ∀ x ∈ (samplingTick gaze frame objects now sessionStart s).events,
      x.type ≠ EventType.EYE_CLOSURE := by
  simp only [samplingTick]
  exact addEvents_no_eye now sessionStart _ _
    (addEvents_no_eye now sessionStart _ (s.debounce, s.events) hS
      (focusEffectCandidates_no_eye _))
    (objectEffectCandidates_no_eye objects)

/-- Claim C10: starting from a session-start state with an empty event log,
    no reachable engine state contains an EYE_CLOSURE event (no emission path
    constructs one), so the final report's `eyeClosureCount` is always 0. -/
theorem C10_no_eye_closure (gaze : Landmarks → GazeResult)
    (sessionStart : Int) (s0 : EngineState) (h0 : s0.events = [])
    (inputs : List TickInput) (sid : Option Nat) (name : String)
    (startTime endTime : Int) :
    (∀ e ∈ (runTicks gaze sessionStart s0 inputs).events,
      e.type ≠ EventType.EYE_CLOSURE) ∧
    (mkSessionData sid name startTime endTime
      (runTicks gaze sessionStart s0 inputs).events).focusSummary.eyeClosureCount = 0 := by
  have main : ∀ s : EngineState,
      (∀ x ∈ s.events, x.type ≠ EventType.EYE_CLOSURE) →
      ∀ x ∈ (runTicks gaze sessionStart s inputs).events,
        x.type ≠ EventType.EYE_CLOSURE := by
    induction inputs with
    | nil => intro s hs; exact hs
    | cons i t ih =>
        intro s hs
        simp only [runTicks, List.foldl_cons]
        exact ih _ (samplingTick_no_eye gaze i.frame i.objects i.now sessionStart s hs)
  have hall : ∀ x ∈ (runTicks gaze sessionStart s0 inputs).events,
      x.type ≠ EventType.EYE_CLOSURE :=
    main s0 (by rw [h0]; intro x hx; exact absurd hx (List.not_mem_nil x))
  refine ⟨hall, ?_⟩
  simp only [mkSessionData]
  rw [List.length_eq_zero, List.filter_eq_nil_iff]
  intro a ha
  simpa using hall a ha

/-- Claim C10 witness: the 11-tick no-face run produces a report with
    `eyeClosureCount = 0`. -/
theorem C10_witness :
    (mkSessionData (some 1) "Ada" 1700000000000 1700000011000
      (runTicks gaze0 1700000000000 scnStart scnInputs).events).focusSummary.eyeClosureCount = 0 :=
  (C10_no_eye_closure gaze0 1700000000000 scnStart rfl scnInputs
    (some 1) "Ada" 1700000000000 1700000011000).2

end Proctor
